import Mathlib

/-!
# Pomodoro timer (`src/script.js`)

A shallow embedding of the timer script.  The module-level variables, the
parts of the page the script writes to and the browser facilities it calls
(`setInterval`, `clearInterval`, `alert`) are gathered in one record, and
every function of the script is a function on that record.

* numbers are `Int` (`timeLeft`) or `Nat` (`sessions`): all values stay far
  below 2^53, where JavaScript numbers are exact integers;
* the mode is a `String`, as in the script, so that `setMode` can be applied
  to any string;
* `setInterval` hands out fresh identifiers and records them in `intervals`,
  the set of intervals the browser will still fire; `clearInterval` removes
  an identifier from it;
* `alert` appends its message to `alerts`.
-/

namespace Pomodoro

/-! ## Constants (script.js, lines 24-26) -/

def FOCUS_TIME : Int := 25
def SHORT_BREAK : Int := 5
def LONG_BREAK : Int := 15

/-! ## State -/

/-- The variables of the script, the page and the browser. -/
structure State where
  /-- `let timeLeft` -/
  timeLeft : Int
  /-- `let isRunning` -/
  isRunning : Bool
  /-- `let timerInterval`; `none` is `null` -/
  timerInterval : Option Nat
  /-- `let currentMode` -/
  currentMode : String
  /-- `let sessions` -/
  sessions : Nat
  /-- `timerDisplay.textContent` -/
  timerText : String
  /-- `document.title` -/
  title : String
  /-- `modeLabel.textContent` -/
  modeLabelText : String
  /-- `startBtn.textContent` -/
  startBtnText : String
  /-- `sessionCount.textContent` -/
  sessionCountText : String
  /-- `focusBtn.classList` contains `active` -/
  focusActive : Bool
  /-- `shortBreakBtn.classList` contains `active` -/
  shortBreakActive : Bool
  /-- `longBreakBtn.classList` contains `active` -/
  longBreakActive : Bool
  /-- identifiers of the intervals the browser still fires -/
  intervals : List Nat
  /-- the identifier the next `setInterval` returns -/
  nextId : Nat
  /-- messages shown by `alert`, most recent first -/
  alerts : List String
  deriving DecidableEq, Repr

/-! ## JavaScript primitives used by the script -/

/-- `Number.prototype.toString` on an integer value. -/
def numToString (n : Int) : String :=
  if n < 0 then "-" ++ Nat.repr n.natAbs else Nat.repr n.natAbs

/-- `String.prototype.padStart(targetLength, c)` with a one-character pad. -/
def padStart (str : String) (targetLength : Nat) (c : Char) : String :=
  String.mk (List.replicate (targetLength - str.length) c) ++ str

/-- `Math.floor(a / b)` on integer values, `b` positive. -/
def floorDiv (a b : Int) : Int := Int.fdiv a b

/-- The remainder operator `a % b` of JavaScript: the sign follows `a`. -/
def jsRem (a b : Int) : Int := Int.tmod a b

/-- `clearInterval(handle)`: a `null` handle clears nothing. -/
def clearInterval (handle : Option Nat) (active : List Nat) : List Nat :=
  match handle with
  | none => active
  | some id => active.filter (fun j => j != id)

/-! ## The functions of the script -/

/-- `updateDisplay` (lines 60-74). -/
def updateDisplay (s : State) : State :=
  let minutes := floorDiv s.timeLeft 60
  let seconds := jsRem s.timeLeft 60
  let minutes := padStart (numToString minutes) 2 '0'
  let seconds := padStart (numToString seconds) 2 '0'
  { s with
    timerText := minutes ++ ":" ++ seconds
    title := minutes ++ ":" ++ seconds ++ " - Pomodoro" }

/-- `pauseTimer` (lines 108-112). -/
def pauseTimer (s : State) : State :=
  { s with
    isRunning := false
    startBtnText := "Start"
    intervals := clearInterval s.timerInterval s.intervals }

/-- `resetTimer` (lines 117-132). -/
def resetTimer (s : State) : State :=
  let s := pauseTimer s
  let s :=
    if s.currentMode = "focus" then { s with timeLeft := FOCUS_TIME * 60 }
    else if s.currentMode = "shortBreak" then { s with timeLeft := SHORT_BREAK * 60 }
    else { s with timeLeft := LONG_BREAK * 60 }
  updateDisplay s

/-- `setMode` (lines 137-171). -/
def setMode (mode : String) (s : State) : State :=
  let s := pauseTimer s
  let s := { s with currentMode := mode }
  let s :=
    if mode = "focus" then
      { s with timeLeft := FOCUS_TIME * 60, modeLabelText := "Focus Time" }
    else if mode = "shortBreak" then
      { s with timeLeft := SHORT_BREAK * 60, modeLabelText := "Short Break" }
    else
      { s with timeLeft := LONG_BREAK * 60, modeLabelText := "Long Break" }
  let s := updateDisplay s
  let s := { s with focusActive := false }
  let s := { s with shortBreakActive := false }
  let s := { s with longBreakActive := false }
  if mode = "focus" then { s with focusActive := true }
  else if mode = "shortBreak" then { s with shortBreakActive := true }
  else { s with longBreakActive := true }

/-- `timerComplete` (lines 176-191). -/
def timerComplete (s : State) : State :=
  let s := pauseTimer s
  let s := { s with alerts := "Time is up!" :: s.alerts }
  let s :=
    if s.currentMode = "focus" then
      let s := { s with sessions := s.sessions + 1 }
      { s with sessionCountText := numToString s.sessions }
    else s
  resetTimer s

/-- The first two statements of the interval callback (lines 96-99):
`timeLeft--; updateDisplay();`. -/
def tickDecrement (s : State) : State :=
  updateDisplay { s with timeLeft := s.timeLeft - 1 }

/-- The function passed to `setInterval` (lines 94-105). -/
def intervalCallback (s : State) : State :=
  let s := tickDecrement s
  if s.timeLeft ≤ 0 then timerComplete s else s

/-- `startTimer` (lines 89-106): `setInterval` registers a new interval and
returns its identifier, which is stored in `timerInterval`. -/
def startTimer (s : State) : State :=
  { s with
    isRunning := true
    startBtnText := "Pause"
    timerInterval := some s.nextId
    intervals := s.intervals ++ [s.nextId]
    nextId := s.nextId + 1 }

/-- `toggleTimer` (lines 79-87). -/
def toggleTimer (s : State) : State :=
  if s.isRunning then pauseTimer s else startTimer s

/-- The browser fires the interval `id`: its callback runs if the interval
is still registered, and nothing happens otherwise. -/
def fire (id : Nat) (s : State) : State :=
  if id ∈ s.intervals then intervalCallback s else s

/-- The state once the script has been loaded (lines 17-21) and the
`DOMContentLoaded` handler has run (line 54).  The page content the script
has not written yet (it comes from the HTML page, which is not part of the
script) is left empty and no button is marked. -/
def init : State :=
  updateDisplay
    { timeLeft := 25 * 60
      isRunning := false
      timerInterval := none
      currentMode := "focus"
      sessions := 0
      timerText := ""
      title := ""
      modeLabelText := ""
      startBtnText := ""
      sessionCountText := ""
      focusActive := false
      shortBreakActive := false
      longBreakActive := false
      intervals := []
      nextId := 1
      alerts := [] }

/-! ## The three modes the buttons select -/

/-- The values the click handlers pass to `setMode` (lines 49-51). -/
inductive Mode where
  | focus
  | shortBreak
  | longBreak
  deriving DecidableEq, Repr

/-- The string the script uses for a mode. -/
def Mode.name : Mode → String
  | .focus => "focus"
  | .shortBreak => "shortBreak"
  | .longBreak => "longBreak"

/-- Duration of a mode in seconds, as the specification gives it:
Focus 25·60, ShortBreak 5·60, LongBreak 15·60. -/
def modeDuration : Mode → Int
  | .focus => 25 * 60
  | .shortBreak => 5 * 60
  | .longBreak => 15 * 60

/-! ## The display format, as the specification words it -/

/-- A number below 100 written as exactly two decimal digits. -/
def twoDigits (n : Nat) : String :=
  String.mk [Nat.digitChar (n / 10), Nat.digitChar (n % 10)]

/-- The text `MM:SS` for a number of seconds: minutes `floor (t / 60)` and
seconds `t mod 60`, two digits each, joined by a colon. -/
def formatMMSS (t : Nat) : String :=
  twoDigits (t / 60) ++ ":" ++ twoDigits (t % 60)

/-! ## Events and reachable states -/

/-- What can happen to the page: a click on one of the five buttons
(lines 47-51) or the browser firing a registered interval. -/
inductive Event where
  | clickStart
  | clickReset
  | clickMode (m : Mode)
  | tick (id : Nat)
  deriving DecidableEq, Repr

/-- The handler the script runs for an event. -/
def handle (e : Event) (s : State) : State :=
  match e with
  | .clickStart => toggleTimer s
  | .clickReset => resetTimer s
  | .clickMode m => setMode m.name s
  | .tick id => fire id s

/-- States reachable from `init` by clicks and by ticks of registered
intervals. -/
inductive Reachable : State → Prop where
  | init : Reachable init
  | toggle {s : State} : Reachable s → Reachable (toggleTimer s)
  | reset {s : State} : Reachable s → Reachable (resetTimer s)
  | mode {s : State} (m : Mode) : Reachable s → Reachable (setMode m.name s)
  | tick {s : State} (id : Nat) : Reachable s → id ∈ s.intervals → Reachable (fire id s)

/-- One second of wall-clock time: every interval registered at its start
fires once, in the order of registration (all intervals of the script have
the same period of 1000 ms). -/
def elapseSecond (s : State) : State :=
  s.intervals.foldl (fun st id => fire id st) s

/-- The mode is one of the three and the time left lies between one second
and the duration of the mode. -/
def InRange (s : State) : Prop :=
  ∃ m : Mode, s.currentMode = m.name ∧ 1 ≤ s.timeLeft ∧ s.timeLeft ≤ modeDuration m

/-- While the timer runs exactly one interval is registered, the one whose
identifier `timerInterval` holds; while it does not run none is. -/
def OneSource (s : State) : Prop :=
  if s.isRunning then ∃ id : Nat, s.timerInterval = some id ∧ s.intervals = [id]
  else s.intervals = []

/-- States reachable from `init` when the functions of the script are
called in any order, startTimer and pauseTimer directly included, setMode
with any string, and registered intervals fire.  Two startTimer calls in a
row leave two intervals registered, and both may tick. -/
inductive CallReachable : State → Prop where
  | init : CallReachable init
  | start {s : State} : CallReachable s → CallReachable (startTimer s)
  | pause {s : State} : CallReachable s → CallReachable (pauseTimer s)
  | toggle {s : State} : CallReachable s → CallReachable (toggleTimer s)
  | reset {s : State} : CallReachable s → CallReachable (resetTimer s)
  | mode {s : State} (v : String) : CallReachable s → CallReachable (setMode v s)
  | tick {s : State} (id : Nat) :
      CallReachable s → id ∈ s.intervals → CallReachable (fire id s)

/-- The interval whose identifier `timerInterval` holds is not registered
while the timer is not running. -/
def StoppedClear (s : State) : Prop :=
  s.isRunning = false → clearInterval s.timerInterval s.intervals = s.intervals

/-- The human label of a mode, as the specification lists them. -/
def modeLabel : Mode → String
  | .focus => "Focus Time"
  | .shortBreak => "Short Break"
  | .longBreak => "Long Break"

/-- A text of exactly five characters: two decimal digits, a colon, two
decimal digits. -/
def isClockText (str : String) : Bool :=
  match str.data with
  | [a, b, c, d, e] => a.isDigit && b.isDigit && c == ':' && d.isDigit && e.isDigit
  | _ => false

/-- The timer text and the page title show the current `timeLeft`: they are
what updateDisplay would write now. -/
def DisplayFresh (s : State) : Prop :=
  s.timerText = (updateDisplay s).timerText ∧ s.title = (updateDisplay s).title

/-! ## Frame lemmas -/

section Frame

@[simp] theorem updateDisplay_timeLeft (s : State) :
    (updateDisplay s).timeLeft = s.timeLeft := rfl
@[simp] theorem updateDisplay_isRunning (s : State) :
    (updateDisplay s).isRunning = s.isRunning := rfl
@[simp] theorem updateDisplay_timerInterval (s : State) :
    (updateDisplay s).timerInterval = s.timerInterval := rfl
@[simp] theorem updateDisplay_currentMode (s : State) :
    (updateDisplay s).currentMode = s.currentMode := rfl
@[simp] theorem updateDisplay_sessions (s : State) :
    (updateDisplay s).sessions = s.sessions := rfl
@[simp] theorem updateDisplay_intervals (s : State) :
    (updateDisplay s).intervals = s.intervals := rfl
@[simp] theorem updateDisplay_nextId (s : State) :
    (updateDisplay s).nextId = s.nextId := rfl
@[simp] theorem updateDisplay_alerts (s : State) :
    (updateDisplay s).alerts = s.alerts := rfl

@[simp] theorem pauseTimer_timeLeft (s : State) :
    (pauseTimer s).timeLeft = s.timeLeft := rfl
@[simp] theorem pauseTimer_isRunning (s : State) :
    (pauseTimer s).isRunning = false := rfl
@[simp] theorem pauseTimer_timerInterval (s : State) :
    (pauseTimer s).timerInterval = s.timerInterval := rfl
@[simp] theorem pauseTimer_currentMode (s : State) :
    (pauseTimer s).currentMode = s.currentMode := rfl
@[simp] theorem pauseTimer_sessions (s : State) :
    (pauseTimer s).sessions = s.sessions := rfl
@[simp] theorem pauseTimer_intervals (s : State) :
    (pauseTimer s).intervals = clearInterval s.timerInterval s.intervals := rfl
@[simp] theorem pauseTimer_nextId (s : State) :
    (pauseTimer s).nextId = s.nextId := rfl
@[simp] theorem pauseTimer_alerts (s : State) :
    (pauseTimer s).alerts = s.alerts := rfl

@[simp] theorem startTimer_timeLeft (s : State) :
    (startTimer s).timeLeft = s.timeLeft := rfl
@[simp] theorem startTimer_isRunning (s : State) :
    (startTimer s).isRunning = true := rfl
@[simp] theorem startTimer_timerInterval (s : State) :
    (startTimer s).timerInterval = some s.nextId := rfl
@[simp] theorem startTimer_currentMode (s : State) :
    (startTimer s).currentMode = s.currentMode := rfl
@[simp] theorem startTimer_sessions (s : State) :
    (startTimer s).sessions = s.sessions := rfl
@[simp] theorem startTimer_intervals (s : State) :
    (startTimer s).intervals = s.intervals ++ [s.nextId] := rfl
@[simp] theorem startTimer_nextId (s : State) :
    (startTimer s).nextId = s.nextId + 1 := rfl
@[simp] theorem startTimer_alerts (s : State) :
    (startTimer s).alerts = s.alerts := rfl

@[simp] theorem resetTimer_currentMode (s : State) :
    (resetTimer s).currentMode = s.currentMode := by
  simp only [resetTimer]; split_ifs <;> rfl
@[simp] theorem resetTimer_sessions (s : State) :
    (resetTimer s).sessions = s.sessions := by
  simp only [resetTimer]; split_ifs <;> rfl
@[simp] theorem resetTimer_isRunning (s : State) :
    (resetTimer s).isRunning = false := by
  simp only [resetTimer]; split_ifs <;> rfl
@[simp] theorem resetTimer_timerInterval (s : State) :
    (resetTimer s).timerInterval = s.timerInterval := by
  simp only [resetTimer]; split_ifs <;> rfl
@[simp] theorem resetTimer_intervals (s : State) :
    (resetTimer s).intervals = clearInterval s.timerInterval s.intervals := by
  simp only [resetTimer]; split_ifs <;> rfl
@[simp] theorem resetTimer_nextId (s : State) :
    (resetTimer s).nextId = s.nextId := by
  simp only [resetTimer]; split_ifs <;> rfl
@[simp] theorem resetTimer_alerts (s : State) :
    (resetTimer s).alerts = s.alerts := by
  simp only [resetTimer]; split_ifs <;> rfl

/-- The time `resetTimer` restores is the duration of the current mode. -/
theorem resetTimer_timeLeft (s : State) (m : Mode) (h : s.currentMode = m.name) :
    (resetTimer s).timeLeft = modeDuration m := by
  cases m <;>
    simp [resetTimer, h, Mode.name, modeDuration, FOCUS_TIME, SHORT_BREAK, LONG_BREAK]

@[simp] theorem setMode_currentMode (v : String) (s : State) :
    (setMode v s).currentMode = v := by
  simp only [setMode]; split_ifs <;> rfl
@[simp] theorem setMode_sessions (v : String) (s : State) :
    (setMode v s).sessions = s.sessions := by
  simp only [setMode]; split_ifs <;> rfl
@[simp] theorem setMode_isRunning (v : String) (s : State) :
    (setMode v s).isRunning = false := by
  simp only [setMode]; split_ifs <;> rfl
@[simp] theorem setMode_timerInterval (v : String) (s : State) :
    (setMode v s).timerInterval = s.timerInterval := by
  simp only [setMode]; split_ifs <;> rfl
@[simp] theorem setMode_intervals (v : String) (s : State) :
    (setMode v s).intervals = clearInterval s.timerInterval s.intervals := by
  simp only [setMode]; split_ifs <;> rfl
@[simp] theorem setMode_nextId (v : String) (s : State) :
    (setMode v s).nextId = s.nextId := by
  simp only [setMode]; split_ifs <;> rfl
@[simp] theorem setMode_alerts (v : String) (s : State) :
    (setMode v s).alerts = s.alerts := by
  simp only [setMode]; split_ifs <;> rfl

/-- The time `setMode` sets for one of the three modes is its duration. -/
theorem setMode_timeLeft (m : Mode) (s : State) :
    (setMode m.name s).timeLeft = modeDuration m := by
  cases m <;>
    simp [setMode, Mode.name, modeDuration, FOCUS_TIME, SHORT_BREAK, LONG_BREAK]

@[simp] theorem timerComplete_currentMode (s : State) :
    (timerComplete s).currentMode = s.currentMode := by
  simp only [timerComplete]; split_ifs <;> simp
@[simp] theorem timerComplete_isRunning (s : State) :
    (timerComplete s).isRunning = false := by
  simp only [timerComplete]; split_ifs <;> simp
@[simp] theorem timerComplete_timerInterval (s : State) :
    (timerComplete s).timerInterval = s.timerInterval := by
  simp only [timerComplete]; split_ifs <;> simp
@[simp] theorem timerComplete_nextId (s : State) :
    (timerComplete s).nextId = s.nextId := by
  simp only [timerComplete]; split_ifs <;> simp
@[simp] theorem timerComplete_alerts (s : State) :
    (timerComplete s).alerts = "Time is up!" :: s.alerts := by
  simp only [timerComplete]; split_ifs <;> simp

theorem timerComplete_timeLeft (s : State) (m : Mode) (h : s.currentMode = m.name) :
    (timerComplete s).timeLeft = modeDuration m := by
  simp only [timerComplete]
  split_ifs <;> exact resetTimer_timeLeft _ m (by simpa using h)

theorem timerComplete_sessions (s : State) :
    (timerComplete s).sessions =
      if s.currentMode = "focus" then s.sessions + 1 else s.sessions := by
  simp only [timerComplete, pauseTimer_currentMode]; split_ifs <;> simp

@[simp] theorem tickDecrement_timeLeft (s : State) :
    (tickDecrement s).timeLeft = s.timeLeft - 1 := rfl
@[simp] theorem tickDecrement_currentMode (s : State) :
    (tickDecrement s).currentMode = s.currentMode := rfl
@[simp] theorem tickDecrement_sessions (s : State) :
    (tickDecrement s).sessions = s.sessions := rfl
@[simp] theorem tickDecrement_isRunning (s : State) :
    (tickDecrement s).isRunning = s.isRunning := rfl
@[simp] theorem tickDecrement_timerInterval (s : State) :
    (tickDecrement s).timerInterval = s.timerInterval := rfl
@[simp] theorem tickDecrement_intervals (s : State) :
    (tickDecrement s).intervals = s.intervals := rfl
@[simp] theorem tickDecrement_nextId (s : State) :
    (tickDecrement s).nextId = s.nextId := rfl
@[simp] theorem tickDecrement_alerts (s : State) :
    (tickDecrement s).alerts = s.alerts := rfl

theorem modeDuration_pos (m : Mode) : 1 ≤ modeDuration m := by
  cases m <;> simp [modeDuration]

end Frame

/-! ## The countdown stays within the duration of the mode -/

theorem inRange_init : InRange init :=
  ⟨Mode.focus, by decide, by decide, by decide⟩

theorem inRange_resetTimer {s : State} (h : InRange s) : InRange (resetTimer s) := by
  obtain ⟨m, hm, -, -⟩ := h
  exact ⟨m, by simpa using hm, by rw [resetTimer_timeLeft s m hm]; exact modeDuration_pos m,
    by rw [resetTimer_timeLeft s m hm]⟩

theorem inRange_setMode (m : Mode) (s : State) : InRange (setMode m.name s) :=
  ⟨m, by simp, by rw [setMode_timeLeft]; exact modeDuration_pos m, by rw [setMode_timeLeft]⟩

theorem inRange_toggleTimer {s : State} (h : InRange s) : InRange (toggleTimer s) := by
  obtain ⟨m, hm, h1, h2⟩ := h
  unfold toggleTimer
  split_ifs
  · exact ⟨m, by simpa using hm, by simpa using h1, by simpa using h2⟩
  · exact ⟨m, by simpa using hm, by simpa using h1, by simpa using h2⟩

theorem inRange_intervalCallback {s : State} (h : InRange s) :
    InRange (intervalCallback s) := by
  obtain ⟨m, hm, h1, h2⟩ := h
  unfold intervalCallback
  simp only
  split_ifs with h0
  · have hm2 : (tickDecrement s).currentMode = m.name := by simpa using hm
    refine ⟨m, by simpa using hm, ?_, ?_⟩
    · rw [timerComplete_timeLeft _ m hm2]; exact modeDuration_pos m
    · rw [timerComplete_timeLeft _ m hm2]
  · simp only [tickDecrement_timeLeft] at h0
    exact ⟨m, by simpa using hm, by simp only [tickDecrement_timeLeft]; omega,
      by simp only [tickDecrement_timeLeft]; omega⟩

theorem inRange_fire (id : Nat) {s : State} (h : InRange s) : InRange (fire id s) := by
  unfold fire
  split_ifs
  · exact inRange_intervalCallback h
  · exact h

theorem inRange_of_reachable {s : State} (h : Reachable s) : InRange s := by
  induction h with
  | init => exact inRange_init
  | toggle _ ih => exact inRange_toggleTimer ih
  | reset _ ih => exact inRange_resetTimer ih
  | mode m _ _ => exact inRange_setMode m _
  | tick id _ _ ih => exact inRange_fire id ih

/-- C1: in every state reachable from the initial state by toggleTimer,
resetTimer, setMode with one of the three modes and interval ticks, the mode
is one of the three and `0 ≤ timeLeft ≤ modeDuration currentMode`. -/
theorem timeLeft_within_mode_duration (s : State) (h : Reachable s) :
    ∃ m : Mode, s.currentMode = m.name ∧ 0 ≤ s.timeLeft ∧ s.timeLeft ≤ modeDuration m := by
  obtain ⟨m, hm, h1, h2⟩ := inRange_of_reachable h
  exact ⟨m, hm, by omega, h2⟩

/-- The invariant of C1 at the state reached by starting the timer and
letting its interval fire once. -/
theorem timeLeft_within_mode_duration_witness :
    Reachable (fire 1 (toggleTimer init)) ∧
    ∃ m : Mode, (fire 1 (toggleTimer init)).currentMode = m.name ∧
      0 ≤ (fire 1 (toggleTimer init)).timeLeft ∧
      (fire 1 (toggleTimer init)).timeLeft ≤ modeDuration m :=
  ⟨Reachable.tick 1 (Reachable.toggle Reachable.init) (by decide),
   timeLeft_within_mode_duration _
     (Reachable.tick 1 (Reachable.toggle Reachable.init) (by decide))⟩

/-! ## Counting down -/

section Countdown

theorem fire_of_one_lt {id : Nat} {s : State} (hid : id ∈ s.intervals)
    (h : 1 < s.timeLeft) : fire id s = tickDecrement s := by
  have h0 : ¬ (tickDecrement s).timeLeft ≤ 0 := by
    simp only [tickDecrement_timeLeft]; omega
  unfold fire intervalCallback
  rw [if_pos hid]
  exact if_neg h0

theorem fire_of_le_one {id : Nat} {s : State} (hid : id ∈ s.intervals)
    (h : s.timeLeft ≤ 1) : fire id s = timerComplete (tickDecrement s) := by
  have h0 : (tickDecrement s).timeLeft ≤ 0 := by
    simp only [tickDecrement_timeLeft]; omega
  unfold fire intervalCallback
  rw [if_pos hid]
  exact if_pos h0

/-- What `n` ticks of a registered interval do while more than `n` seconds
are left: only `timeLeft` and the display change. -/
theorem iterate_fire_lt (id : Nat) (s : State) (hid : id ∈ s.intervals) (n : Nat)
    (hn : (n : Int) < s.timeLeft) :
    ((fire id)^[n] s).timeLeft = s.timeLeft - n ∧
    ((fire id)^[n] s).alerts = s.alerts ∧
    ((fire id)^[n] s).intervals = s.intervals ∧
    ((fire id)^[n] s).currentMode = s.currentMode ∧
    ((fire id)^[n] s).sessions = s.sessions ∧
    ((fire id)^[n] s).isRunning = s.isRunning ∧
    ((fire id)^[n] s).timerInterval = s.timerInterval ∧
    ((fire id)^[n] s).nextId = s.nextId := by
  induction n with
  | zero => simp
  | succ k ih =>
    have hk : (k : Int) < s.timeLeft := by push_cast at hn; omega
    obtain ⟨h1, h2, h3, h4, h5, h6, h7, h8⟩ := ih hk
    have hid2 : id ∈ ((fire id)^[k] s).intervals := by rw [h3]; exact hid
    have hlt : 1 < ((fire id)^[k] s).timeLeft := by rw [h1]; push_cast at hn; omega
    rw [Function.iterate_succ_apply', fire_of_one_lt hid2 hlt]
    refine ⟨?_, by simpa using h2, by simpa using h3, by simpa using h4,
      by simpa using h5, by simpa using h6, by simpa using h7, by simpa using h8⟩
    simp only [tickDecrement_timeLeft, h1]; push_cast; omega

/-- The tick taken with one second left completes the countdown. -/
theorem iterate_fire_last (id : Nat) (s : State) (hid : id ∈ s.intervals) (d : Nat)
    (hd : s.timeLeft = (d : Int) + 1) :
    (fire id)^[d + 1] s = timerComplete (tickDecrement ((fire id)^[d] s)) ∧
    (tickDecrement ((fire id)^[d] s)).timeLeft = 0 := by
  obtain ⟨h1, -, h3, -⟩ := iterate_fire_lt id s hid d (by omega)
  have hid2 : id ∈ ((fire id)^[d] s).intervals := by rw [h3]; exact hid
  have hle : ((fire id)^[d] s).timeLeft ≤ 1 := by rw [h1]; omega
  refine ⟨?_, ?_⟩
  · rw [Function.iterate_succ_apply', fire_of_le_one hid2 hle]
  · simp only [tickDecrement_timeLeft, h1]; omega

end Countdown

/-- C2: from a state (running or not) whose mode is one of the three and
whose time left is the duration of that mode, startTimer followed by ticks
of the interval it registered counts down one second per tick, in the same
mode and without completing (no alert), for every `n < modeDuration m`; the
tick number `modeDuration m` brings `timeLeft` to 0 and runs timerComplete,
and over the whole run exactly one alert "Time is up!" is added. -/
theorem start_then_ticks_completes_once (m : Mode) (s : State)
    (hmode : s.currentMode = m.name) (htime : s.timeLeft = modeDuration m) :
    (∀ n : Nat, (n : Int) < modeDuration m →
      ((fire s.nextId)^[n] (startTimer s)).timeLeft = modeDuration m - n ∧
      ((fire s.nextId)^[n] (startTimer s)).currentMode = m.name ∧
      ((fire s.nextId)^[n] (startTimer s)).alerts = s.alerts) ∧
    (tickDecrement ((fire s.nextId)^[(modeDuration m).toNat - 1] (startTimer s))).timeLeft = 0 ∧
    (fire s.nextId)^[(modeDuration m).toNat] (startTimer s) =
      timerComplete
        (tickDecrement ((fire s.nextId)^[(modeDuration m).toNat - 1] (startTimer s))) ∧
    ((fire s.nextId)^[(modeDuration m).toNat] (startTimer s)).alerts =
      "Time is up!" :: s.alerts := by
  have hid : s.nextId ∈ (startTimer s).intervals := by simp
  have ht : (startTimer s).timeLeft = modeDuration m := by simpa using htime
  have hpos := modeDuration_pos m
  obtain ⟨d, hd⟩ : ∃ d : Nat, modeDuration m = (d : Int) + 1 :=
    ⟨(modeDuration m - 1).toNat, by omega⟩
  have hd2 : (modeDuration m).toNat = d + 1 := by omega
  have hlast := iterate_fire_last s.nextId (startTimer s) hid d (by rw [ht, hd])
  rw [hd2, Nat.add_sub_cancel]
  refine ⟨?_, hlast.2, hlast.1, ?_⟩
  · intro n hn
    obtain ⟨h1, h2, -, h4, -⟩ :=
      iterate_fire_lt s.nextId (startTimer s) hid n (by rw [ht]; exact hn)
    exact ⟨by rw [h1, ht], by rw [h4]; simpa using hmode, by simpa using h2⟩
  · rw [hlast.1, timerComplete_alerts, tickDecrement_alerts]
    obtain ⟨-, h2, -⟩ := iterate_fire_lt s.nextId (startTimer s) hid d (by rw [ht]; omega)
    simpa using h2

/-- C2 at the initial state: focus, 1500 ticks, one notification. -/
theorem start_then_ticks_completes_once_witness :
    ((fire 1)^[1499] (startTimer init)).timeLeft = 1 ∧
    (tickDecrement ((fire 1)^[1499] (startTimer init))).timeLeft = 0 ∧
    ((fire 1)^[1500] (startTimer init)).alerts = ["Time is up!"] := by
  have h := start_then_ticks_completes_once Mode.focus init (by decide) (by decide)
  exact ⟨(h.1 1499 (by decide)).1, h.2.1, h.2.2.2⟩

/-- C3: timerComplete raises `sessions` by exactly one in focus mode and
then writes the new value to the session-count display; in shortBreak and
longBreak mode it leaves `sessions` (and that display) unchanged. -/
theorem timerComplete_counts_focus_only (s : State) :
    (s.currentMode = "focus" →
      (timerComplete s).sessions = s.sessions + 1 ∧
      (timerComplete s).sessionCountText = numToString ((s.sessions + 1 : Nat) : Int)) ∧
    (s.currentMode = "shortBreak" ∨ s.currentMode = "longBreak" →
      (timerComplete s).sessions = s.sessions ∧
      (timerComplete s).sessionCountText = s.sessionCountText) := by
  constructor
  · intro h
    refine ⟨by rw [timerComplete_sessions, if_pos h], ?_⟩
    simp only [timerComplete, pauseTimer_currentMode, if_pos h, resetTimer]
    rfl
  · intro h
    have hne : ¬ s.currentMode = "focus" := by
      rcases h with h | h <;> rw [h] <;> decide
    refine ⟨by rw [timerComplete_sessions, if_neg hne], ?_⟩
    simp only [timerComplete, pauseTimer_currentMode, if_neg hne, resetTimer]
    first | rfl | (split_ifs <;> rfl)

/-- C3 at the first completion in focus mode (the count shows "1") and at a
completion in short-break mode (the count stays 0). -/
theorem timerComplete_counts_focus_only_witness :
    ((timerComplete init).sessions = 1 ∧ (timerComplete init).sessionCountText = "1") ∧
    ((timerComplete (setMode "shortBreak" init)).sessions = 0 ∧
      (timerComplete (setMode "shortBreak" init)).sessionCountText = "") :=
  ⟨(timerComplete_counts_focus_only init).1 (by decide),
   (timerComplete_counts_focus_only (setMode "shortBreak" init)).2 (Or.inl (by decide))⟩

/-- C4: for each of the three modes, after timerComplete the timer is not
running, the mode is the one it was, and `timeLeft` is the duration of that
mode. -/
theorem timerComplete_resets_same_mode (m : Mode) (s : State)
    (hmode : s.currentMode = m.name) :
    (timerComplete s).isRunning = false ∧
    (timerComplete s).currentMode = m.name ∧
    (timerComplete s).timeLeft = modeDuration m :=
  ⟨timerComplete_isRunning s, by rw [timerComplete_currentMode, hmode],
   timerComplete_timeLeft s m hmode⟩

/-- C4 after a full focus countdown from the initial state: 1500 ticks end
in timerComplete, which leaves mode focus, 1500 seconds, not running, and
one session counted. -/
theorem timerComplete_resets_same_mode_witness :
    (fire 1)^[1500] (startTimer init) =
      timerComplete (tickDecrement ((fire 1)^[1499] (startTimer init))) ∧
    ((fire 1)^[1500] (startTimer init)).isRunning = false ∧
    ((fire 1)^[1500] (startTimer init)).currentMode = "focus" ∧
    ((fire 1)^[1500] (startTimer init)).timeLeft = 1500 ∧
    ((fire 1)^[1500] (startTimer init)).sessions = 1 := by
  have hid : 1 ∈ (startTimer init).intervals := by decide
  have hlast := iterate_fire_last 1 (startTimer init) hid 1499 (by decide)
  obtain ⟨-, -, -, h4, h5, -⟩ := iterate_fire_lt 1 (startTimer init) hid 1499 (by decide)
  have hmode : (tickDecrement ((fire 1)^[1499] (startTimer init))).currentMode =
      Mode.focus.name := by
    rw [tickDecrement_currentMode, h4]; decide
  have h := timerComplete_resets_same_mode Mode.focus _ hmode
  refine ⟨hlast.1, ?_, ?_, ?_, ?_⟩
  · rw [hlast.1]; exact h.1
  · rw [hlast.1]; exact h.2.1
  · rw [hlast.1]; exact h.2.2
  · have hfocus : (tickDecrement ((fire 1)^[1499] (startTimer init))).currentMode = "focus" :=
      hmode
    rw [hlast.1, timerComplete_sessions, if_pos hfocus, tickDecrement_sessions, h5]; decide

/-! ## Display format -/

section Format

theorem padStart_numToString_lt_100 (n : Nat) (h : n < 100) :
    padStart (numToString (n : Int)) 2 '0' = twoDigits n := by
  interval_cases n <;> rfl

end Format

/-- C5: for `0 ≤ timeLeft ≤ 5999`, updateDisplay writes MM:SS with
MM = floor (timeLeft / 60) and SS = timeLeft mod 60, each as exactly two
decimal digits with zero padding. -/
theorem updateDisplay_renders_MMSS (s : State) (h0 : 0 ≤ s.timeLeft)
    (h1 : s.timeLeft ≤ 5999) :
    (updateDisplay s).timerText = formatMMSS s.timeLeft.toNat := by
  obtain ⟨t, ht⟩ : ∃ t : Nat, s.timeLeft = (t : Int) := ⟨s.timeLeft.toNat, by omega⟩
  have hm : floorDiv s.timeLeft 60 = ((t / 60 : Nat) : Int) := by
    rw [ht]; exact (Int.ofNat_fdiv t 60).symm
  have hs : jsRem s.timeLeft 60 = ((t % 60 : Nat) : Int) := by
    rw [ht]; exact (Int.ofNat_tmod t 60).symm
  have hmlt : t / 60 < 100 := by omega
  have hslt : t % 60 < 100 := by omega
  show padStart (numToString (floorDiv s.timeLeft 60)) 2 '0' ++ ":" ++
      padStart (numToString (jsRem s.timeLeft 60)) 2 '0' = _
  rw [hm, hs, padStart_numToString_lt_100 _ hmlt, padStart_numToString_lt_100 _ hslt, ht]
  rfl

/-- C5 at 65, 0 and 1500 seconds: "01:05", "00:00" and "25:00". -/
theorem updateDisplay_renders_MMSS_witness :
    (updateDisplay { init with timeLeft := 65 }).timerText = "01:05" ∧
    (updateDisplay { init with timeLeft := 0 }).timerText = "00:00" ∧
    (updateDisplay { init with timeLeft := 1500 }).timerText = "25:00" :=
  ⟨updateDisplay_renders_MMSS { init with timeLeft := 65 } (by decide) (by decide),
   updateDisplay_renders_MMSS { init with timeLeft := 0 } (by decide) (by decide),
   updateDisplay_renders_MMSS { init with timeLeft := 1500 } (by decide) (by decide)⟩

/-! ## Switching mode and resetting -/

section ModeSwitch

theorem clearInterval_idem (h : Option Nat) (l : List Nat) :
    clearInterval h (clearInterval h l) = clearInterval h l := by
  cases h with
  | none => rfl
  | some id => simp [clearInterval, List.filter_filter]

theorem pauseTimer_idem (s : State) : pauseTimer (pauseTimer s) = pauseTimer s := by
  simp [pauseTimer, clearInterval_idem]

end ModeSwitch

/-- C6: for each of the three modes and every prior state, running or not,
setMode leaves the timer not running, in the new mode, with `timeLeft` the
duration of that mode and `sessions` as before; resetTimer right after it
changes nothing. -/
theorem setMode_sets_mode_and_duration (m : Mode) (s : State) :
    (setMode m.name s).isRunning = false ∧
    (setMode m.name s).currentMode = m.name ∧
    (setMode m.name s).timeLeft = modeDuration m ∧
    (setMode m.name s).sessions = s.sessions ∧
    resetTimer (setMode m.name s) = setMode m.name s := by
  refine ⟨setMode_isRunning _ s, setMode_currentMode _ s, setMode_timeLeft m s,
    setMode_sessions _ s, ?_⟩
  cases m <;>
    simp [setMode, resetTimer, Mode.name, pauseTimer, updateDisplay, clearInterval_idem]

/-- C6 at a running focus countdown: setMode shortBreak pauses the timer
and shows 300 seconds, and the interval is gone. -/
theorem setMode_sets_mode_and_duration_witness :
    (startTimer init).isRunning = true ∧
    (setMode "shortBreak" (startTimer init)).isRunning = false ∧
    (setMode "shortBreak" (startTimer init)).currentMode = "shortBreak" ∧
    (setMode "shortBreak" (startTimer init)).timeLeft = 300 ∧
    (setMode "shortBreak" (startTimer init)).sessions = 0 ∧
    resetTimer (setMode "shortBreak" (startTimer init)) =
      setMode "shortBreak" (startTimer init) :=
  ⟨rfl, setMode_sets_mode_and_duration Mode.shortBreak (startTimer init)⟩

/-- C7, as stated, fails: after a click on the focus button, setMode with
the string "short-break" is accepted; it replaces the mode, the time left,
the mode label and the active button. -/
theorem setMode_unknown_not_rejected :
    (setMode "focus" init).currentMode = "focus" ∧
    (setMode "short-break" (setMode "focus" init)).currentMode = "short-break" ∧
    (setMode "focus" init).timeLeft = 1500 ∧
    (setMode "short-break" (setMode "focus" init)).timeLeft = 900 ∧
    (setMode "focus" init).modeLabelText = "Focus Time" ∧
    (setMode "short-break" (setMode "focus" init)).modeLabelText = "Long Break" ∧
    (setMode "focus" init).focusActive = true ∧
    (setMode "short-break" (setMode "focus" init)).focusActive = false ∧
    (setMode "focus" init).longBreakActive = false ∧
    (setMode "short-break" (setMode "focus" init)).longBreakActive = true := by
  decide

/-- C7, amended: setMode validates nothing.  A string other than "focus"
and "shortBreak" is stored in `currentMode` as it is and handled by the
final `else` branches: 15 minutes, label "Long Break", the long-break button
the only active one, timer paused, sessions unchanged. -/
theorem setMode_other_defaults_to_long_break (v : String) (s : State)
    (hf : v ≠ "focus") (hs : v ≠ "shortBreak") :
    (setMode v s).currentMode = v ∧
    (setMode v s).timeLeft = LONG_BREAK * 60 ∧
    (setMode v s).modeLabelText = "Long Break" ∧
    (setMode v s).focusActive = false ∧
    (setMode v s).shortBreakActive = false ∧
    (setMode v s).longBreakActive = true ∧
    (setMode v s).isRunning = false ∧
    (setMode v s).sessions = s.sessions := by
  simp [setMode, hf, hs, updateDisplay, pauseTimer]

/-- C7 amended, at the string "short-break". -/
theorem setMode_other_defaults_to_long_break_witness :
    (setMode "short-break" init).currentMode = "short-break" ∧
    (setMode "short-break" init).timeLeft = 900 ∧
    (setMode "short-break" init).modeLabelText = "Long Break" ∧
    (setMode "short-break" init).focusActive = false ∧
    (setMode "short-break" init).shortBreakActive = false ∧
    (setMode "short-break" init).longBreakActive = true ∧
    (setMode "short-break" init).isRunning = false ∧
    (setMode "short-break" init).sessions = 0 :=
  setMode_other_defaults_to_long_break "short-break" init (by decide) (by decide)

/-! ## One tick source -/

section Sources

theorem clearInterval_of_oneSource {s : State} (h : OneSource s) :
    clearInterval s.timerInterval s.intervals = [] := by
  unfold OneSource at h
  split_ifs at h with hr
  · obtain ⟨id, h1, h2⟩ := h
    simp [h1, h2, clearInterval]
  · rw [h]; cases s.timerInterval <;> simp [clearInterval]

theorem oneSource_of_stopped {s : State} (hr : s.isRunning = false)
    (hi : s.intervals = []) : OneSource s := by
  unfold OneSource; simp [hr, hi]

theorem oneSource_init : OneSource init := oneSource_of_stopped rfl rfl

theorem oneSource_pauseTimer {s : State} (h : OneSource s) : OneSource (pauseTimer s) :=
  oneSource_of_stopped rfl (by simpa using clearInterval_of_oneSource h)

theorem oneSource_resetTimer {s : State} (h : OneSource s) : OneSource (resetTimer s) :=
  oneSource_of_stopped (by simp) (by simpa using clearInterval_of_oneSource h)

theorem oneSource_setMode (v : String) {s : State} (h : OneSource s) :
    OneSource (setMode v s) :=
  oneSource_of_stopped (by simp) (by simpa using clearInterval_of_oneSource h)

theorem oneSource_timerComplete {s : State} (h : OneSource s) :
    OneSource (timerComplete s) := by
  have h2 : OneSource (pauseTimer s) := oneSource_pauseTimer h
  refine oneSource_of_stopped (by simp) ?_
  simp only [timerComplete]
  split_ifs <;> simpa using clearInterval_of_oneSource h2

theorem oneSource_toggleTimer {s : State} (h : OneSource s) : OneSource (toggleTimer s) := by
  unfold toggleTimer
  split_ifs with hr
  · exact oneSource_pauseTimer h
  · have hi : s.intervals = [] := by
      unfold OneSource at h; simpa [hr] using h
    unfold OneSource
    simp [hi]

theorem oneSource_tickDecrement {s : State} (h : OneSource s) :
    OneSource (tickDecrement s) := h

theorem oneSource_fire (id : Nat) {s : State} (h : OneSource s) : OneSource (fire id s) := by
  unfold fire intervalCallback
  simp only
  split_ifs
  · exact oneSource_timerComplete (oneSource_tickDecrement h)
  · exact oneSource_tickDecrement h
  · exact h

theorem oneSource_of_reachable {s : State} (h : Reachable s) : OneSource s := by
  induction h with
  | init => exact oneSource_init
  | toggle _ ih => exact oneSource_toggleTimer ih
  | reset _ ih => exact oneSource_resetTimer ih
  | mode m _ ih => exact oneSource_setMode m.name ih
  | tick id _ _ ih => exact oneSource_fire id ih

theorem intervals_length_le_one {s : State} (h : OneSource s) : s.intervals.length ≤ 1 := by
  unfold OneSource at h
  split_ifs at h
  · obtain ⟨id, -, h2⟩ := h; simp [h2]
  · simp [h]

theorem elapseSecond_single {id : Nat} {s : State} (h : s.intervals = [id]) :
    elapseSecond s = fire id s := by
  unfold elapseSecond
  rw [h]
  rfl

/-- With a single interval registered, the seconds that pass before the
countdown completes are the ticks of that interval. -/
theorem iterate_elapseSecond_single (id : Nat) (s : State) (hs : s.intervals = [id])
    (n : Nat) (hn : (n : Int) ≤ s.timeLeft) :
    elapseSecond^[n] s = (fire id)^[n] s := by
  induction n with
  | zero => rfl
  | succ k ih =>
    have hk : (k : Int) < s.timeLeft := by push_cast at hn; omega
    have hid : id ∈ s.intervals := by rw [hs]; simp
    obtain ⟨-, -, h3, -⟩ := iterate_fire_lt id s hid k hk
    rw [Function.iterate_succ_apply', Function.iterate_succ_apply', ih (by omega)]
    exact elapseSecond_single (by rw [h3, hs])

end Sources

/-- C8, as stated, fails: startTimer called twice from the initial state
registers two intervals; a later pauseTimer clears only the second, so one
stays registered while the timer counts as paused; and with both firing the
focus countdown completes in the 750th second, not the 1500th. -/
theorem startTimer_twice_two_sources :
    (startTimer (startTimer init)).intervals = [1, 2] ∧
    (pauseTimer (startTimer (startTimer init))).isRunning = false ∧
    (pauseTimer (startTimer (startTimer init))).intervals = [1] ∧
    (elapseSecond^[749] (startTimer (startTimer init))).alerts = [] ∧
    (elapseSecond^[750] (startTimer (startTimer init))).alerts = ["Time is up!"] := by
  set_option maxRecDepth 100000 in decide

/-- C8, amended: startTimer itself has no guard; the guard is in
toggleTimer, its only caller, which starts the timer only when it is not
running.  So in every state reachable by toggleTimer, resetTimer, setMode
and ticks at most one interval is registered, none while the timer is not
running, toggleTimer never brings the number above one, and pauseTimer
leaves no interval registered; and when such a state is running with
`timeLeft = modeDuration m`, exactly `modeDuration m` seconds elapse before
completion: after `n < modeDuration m` seconds `timeLeft` is
`modeDuration m - n` and nothing has been alerted, and the second number
`modeDuration m` brings the one alert. -/
theorem toggleTimer_keeps_one_source (s : State) (h : Reachable s) :
    s.intervals.length ≤ 1 ∧
    (s.isRunning = false → s.intervals = []) ∧
    (toggleTimer s).intervals.length ≤ 1 ∧
    (pauseTimer s).intervals = [] ∧
    (∀ m : Mode, s.isRunning = true → s.currentMode = m.name →
      s.timeLeft = modeDuration m →
      (∀ n : Nat, (n : Int) < modeDuration m →
        (elapseSecond^[n] s).timeLeft = modeDuration m - n ∧
        (elapseSecond^[n] s).alerts = s.alerts) ∧
      (elapseSecond^[(modeDuration m).toNat] s).alerts = "Time is up!" :: s.alerts) := by
  have hs := oneSource_of_reachable h
  refine ⟨intervals_length_le_one hs, ?_, intervals_length_le_one (oneSource_toggleTimer hs),
    by simpa using clearInterval_of_oneSource hs, ?_⟩
  · intro hr
    unfold OneSource at hs
    simpa [hr] using hs
  · intro m hr _ ht
    unfold OneSource at hs
    rw [if_pos hr] at hs
    obtain ⟨id, -, hid⟩ := hs
    have hmem : id ∈ s.intervals := by rw [hid]; simp
    have hpos := modeDuration_pos m
    obtain ⟨d, hd⟩ : ∃ d : Nat, modeDuration m = (d : Int) + 1 :=
      ⟨(modeDuration m - 1).toNat, by omega⟩
    have hd2 : (modeDuration m).toNat = d + 1 := by omega
    constructor
    · intro n hn
      rw [iterate_elapseSecond_single id s hid n (by omega)]
      obtain ⟨h1, h2, -⟩ := iterate_fire_lt id s hmem n (by omega)
      exact ⟨by rw [h1, ht], h2⟩
    · rw [hd2, iterate_elapseSecond_single id s hid (d + 1) (by push_cast; omega)]
      have hlast := iterate_fire_last id s hmem d (by omega)
      obtain ⟨-, h2, -⟩ := iterate_fire_lt id s hmem d (by omega)
      rw [hlast.1, timerComplete_alerts, tickDecrement_alerts, h2]

/-- C8 amended, at the timer started from the loaded page by a click: one
interval, none after a pause, no alert during the first 1499 seconds and the
one alert in second 1500. -/
theorem toggleTimer_keeps_one_source_witness :
    (toggleTimer init).intervals = [1] ∧
    (pauseTimer (toggleTimer init)).intervals = [] ∧
    ((elapseSecond^[1499] (toggleTimer init)).timeLeft = 1 ∧
      (elapseSecond^[1499] (toggleTimer init)).alerts = []) ∧
    (elapseSecond^[1500] (toggleTimer init)).alerts = ["Time is up!"] :=
  have h := toggleTimer_keeps_one_source (toggleTimer init) (Reachable.toggle Reachable.init)
  have ht := h.2.2.2.2 Mode.focus (by decide) (by decide) (by decide)
  ⟨by decide, h.2.2.2.1, ht.1 1499 (by decide), ht.2⟩

/-- C9: in a state whose mode is one of the three, resetTimer leaves
`currentMode` and `sessions` unchanged, stops the timer and sets `timeLeft`
to the duration of the current mode. -/
theorem resetTimer_restores_duration (m : Mode) (s : State) (hmode : s.currentMode = m.name) :
    (resetTimer s).currentMode = s.currentMode ∧
    (resetTimer s).sessions = s.sessions ∧
    (resetTimer s).isRunning = false ∧
    (resetTimer s).timeLeft = modeDuration m :=
  ⟨resetTimer_currentMode s, resetTimer_sessions s, resetTimer_isRunning s,
   resetTimer_timeLeft s m hmode⟩

/-- C9 three ticks into a running focus countdown. -/
theorem resetTimer_restores_duration_witness :
    ((fire 1)^[3] (startTimer init)).timeLeft = 1497 ∧
    ((fire 1)^[3] (startTimer init)).isRunning = true ∧
    (resetTimer ((fire 1)^[3] (startTimer init))).currentMode = "focus" ∧
    (resetTimer ((fire 1)^[3] (startTimer init))).sessions = 0 ∧
    (resetTimer ((fire 1)^[3] (startTimer init))).isRunning = false ∧
    (resetTimer ((fire 1)^[3] (startTimer init))).timeLeft = 1500 :=
  ⟨by decide, by decide,
   resetTimer_restores_duration Mode.focus ((fire 1)^[3] (startTimer init)) (by decide)⟩

/-! ## The session count -/

section Sessions

theorem toggleTimer_sessions (s : State) : (toggleTimer s).sessions = s.sessions := by
  unfold toggleTimer; split_ifs <;> rfl

theorem fire_sessions (id : Nat) (s : State) :
    (fire id s).sessions =
      if id ∈ s.intervals ∧ s.timeLeft ≤ 1 ∧ s.currentMode = "focus" then s.sessions + 1
      else s.sessions := by
  by_cases hid : id ∈ s.intervals
  · by_cases ht : s.timeLeft ≤ 1
    · rw [fire_of_le_one hid ht, timerComplete_sessions]
      simp [hid, ht]
    · rw [fire_of_one_lt hid (by omega)]
      simp [ht]
  · simp [fire, hid]

end Sessions

/-- C10, as stated, fails for timerComplete, which the claim lists among
the operations that leave `sessions` unchanged: called in focus mode it
raises `sessions` by one.  Shown at the call the last tick of a focus
countdown makes (0 to 1) and at a call on the loaded page, with no tick at
all (0 to 1). -/
theorem timerComplete_changes_sessions :
    (tickDecrement ((fire 1)^[1499] (startTimer init))).currentMode = "focus" ∧
    (tickDecrement ((fire 1)^[1499] (startTimer init))).sessions = 0 ∧
    (timerComplete (tickDecrement ((fire 1)^[1499] (startTimer init)))).sessions = 1 ∧
    init.sessions = 0 ∧
    (timerComplete init).sessions = 1 := by
  have hid : 1 ∈ (startTimer init).intervals := by decide
  obtain ⟨-, -, -, h4, h5, -⟩ := iterate_fire_lt 1 (startTimer init) hid 1499 (by decide)
  have hmode : (tickDecrement ((fire 1)^[1499] (startTimer init))).currentMode = "focus" := by
    rw [tickDecrement_currentMode, h4]; decide
  have hsess : (tickDecrement ((fire 1)^[1499] (startTimer init))).sessions = 0 := by
    rw [tickDecrement_sessions, h5]; decide
  refine ⟨hmode, hsess, ?_, by decide, by decide⟩
  rw [timerComplete_sessions, if_pos hmode, hsess]

/-- C10, amended: `sessions` never decreases.  In a state with at least one
second left (every reachable state is one), toggleTimer, startTimer,
pauseTimer, resetTimer and setMode with any argument leave `sessions`
unchanged; timerComplete raises it by exactly one in focus mode and leaves
it unchanged in another mode; a tick raises it by exactly one when it is
the tick of a registered interval that brings `timeLeft` to 0 in focus mode
(the tick that calls timerComplete), and leaves it unchanged otherwise. -/
theorem sessions_only_grow_on_focus_completion (s : State) (h : 1 ≤ s.timeLeft) :
    (toggleTimer s).sessions = s.sessions ∧
    (startTimer s).sessions = s.sessions ∧
    (pauseTimer s).sessions = s.sessions ∧
    (resetTimer s).sessions = s.sessions ∧
    (∀ v : String, (setMode v s).sessions = s.sessions) ∧
    (∀ id : Nat, (fire id s).sessions =
      if id ∈ s.intervals ∧ (tickDecrement s).timeLeft = 0 ∧ s.currentMode = "focus"
      then s.sessions + 1 else s.sessions) ∧
    (timerComplete s).sessions =
      (if s.currentMode = "focus" then s.sessions + 1 else s.sessions) ∧
    s.sessions ≤ (timerComplete s).sessions := by
  refine ⟨toggleTimer_sessions s, rfl, rfl, resetTimer_sessions s,
    fun v => setMode_sessions v s, ?_, timerComplete_sessions s, ?_⟩
  · intro id
    rw [fire_sessions]
    have hiff : s.timeLeft ≤ 1 ↔ (tickDecrement s).timeLeft = 0 := by
      simp only [tickDecrement_timeLeft]; omega
    simp only [hiff]
  · rw [timerComplete_sessions]; split_ifs <;> omega

/-- C10 amended, in the middle of a focus countdown (resetting or switching mode
counts nothing, a tick with 1497 seconds left counts nothing) and at its
last second (the tick counts one session). -/
theorem sessions_only_grow_on_focus_completion_witness :
    (resetTimer ((fire 1)^[3] (startTimer init))).sessions = 0 ∧
    (setMode "shortBreak" ((fire 1)^[3] (startTimer init))).sessions = 0 ∧
    (fire 1 ((fire 1)^[3] (startTimer init))).sessions = 0 ∧
    (fire 1 { startTimer init with timeLeft := 1 }).sessions = 1 :=
  have h3 := sessions_only_grow_on_focus_completion ((fire 1)^[3] (startTimer init))
    (by decide)
  have h1 := sessions_only_grow_on_focus_completion { startTimer init with timeLeft := 1 }
    (by decide)
  ⟨h3.2.2.2.1, h3.2.2.2.2.1 "shortBreak", h3.2.2.2.2.2.1 1, h1.2.2.2.2.2.1 1⟩

/-! ## Pausing and toggling -/

section Pause

theorem stoppedClear_of_paused (s : State) : StoppedClear (pauseTimer s) := by
  intro _
  simp [clearInterval_idem]

theorem stoppedClear_of_running {s : State} (h : s.isRunning = true) : StoppedClear s := by
  intro hr; rw [h] at hr; cases hr

theorem stoppedClear_resetTimer (s : State) : StoppedClear (resetTimer s) := by
  intro _
  simp [clearInterval_idem]

theorem stoppedClear_setMode (v : String) (s : State) : StoppedClear (setMode v s) := by
  intro _
  simp [clearInterval_idem]

theorem timerComplete_intervals (s : State) :
    (timerComplete s).intervals = clearInterval s.timerInterval s.intervals := by
  simp only [timerComplete]; split_ifs <;> simp [clearInterval_idem]

theorem stoppedClear_timerComplete (s : State) : StoppedClear (timerComplete s) := by
  intro _
  rw [timerComplete_timerInterval, timerComplete_intervals, clearInterval_idem]

theorem stoppedClear_fire (id : Nat) {s : State} (h : StoppedClear s) :
    StoppedClear (fire id s) := by
  unfold fire intervalCallback
  simp only
  split_ifs
  · exact stoppedClear_timerComplete _
  · exact h
  · exact h

theorem stoppedClear_of_callReachable {s : State} (h : CallReachable s) : StoppedClear s := by
  induction h with
  | init => intro _; rfl
  | start _ _ => exact stoppedClear_of_running rfl
  | pause _ _ => exact stoppedClear_of_paused _
  | toggle _ _ =>
    unfold toggleTimer
    split_ifs
    · exact stoppedClear_of_paused _
    · exact stoppedClear_of_running rfl
  | reset _ _ => exact stoppedClear_resetTimer _
  | mode v _ _ => exact stoppedClear_setMode v _
  | tick id _ _ ih => exact stoppedClear_fire id ih

theorem callReachable_of_reachable {s : State} (h : Reachable s) : CallReachable s := by
  induction h with
  | init => exact CallReachable.init
  | toggle _ ih => exact CallReachable.toggle ih
  | reset _ ih => exact CallReachable.reset ih
  | mode m _ ih => exact CallReachable.mode m.name ih
  | tick id _ hid ih => exact CallReachable.tick id ih hid

end Pause

/-- C11: in a state the script can be in (reached by any calls of its
functions and ticks) with the timer not running, pauseTimer changes none of
`timeLeft`, `isRunning`, `currentMode`, `sessions`, `timerInterval` and the
registered intervals; it is a total function, so nothing is raised; and for
every state at all, pausing twice gives the same state as pausing once. -/
theorem pauseTimer_noop_when_stopped (s : State) (h : CallReachable s)
    (hr : s.isRunning = false) :
    (pauseTimer s).timeLeft = s.timeLeft ∧
    (pauseTimer s).isRunning = s.isRunning ∧
    (pauseTimer s).currentMode = s.currentMode ∧
    (pauseTimer s).sessions = s.sessions ∧
    (pauseTimer s).timerInterval = s.timerInterval ∧
    (pauseTimer s).intervals = s.intervals ∧
    (∀ t : State, pauseTimer (pauseTimer t) = pauseTimer t) :=
  ⟨rfl, by rw [hr]; rfl, rfl, rfl, rfl, stoppedClear_of_callReachable h hr, pauseTimer_idem⟩

/-- C11 at the freshly loaded page (no interval was ever set) and after a
start followed by a pause (the interval is already cleared). -/
theorem pauseTimer_noop_when_stopped_witness :
    (pauseTimer init).intervals = init.intervals ∧
    (pauseTimer (pauseTimer (startTimer init))).intervals =
      (pauseTimer (startTimer init)).intervals ∧
    (pauseTimer (pauseTimer (startTimer init))).timeLeft = 1500 :=
  ⟨(pauseTimer_noop_when_stopped init CallReachable.init rfl).2.2.2.2.2.1,
   (pauseTimer_noop_when_stopped (pauseTimer (startTimer init))
      (CallReachable.pause (CallReachable.start CallReachable.init)) rfl).2.2.2.2.2.1,
   (pauseTimer_noop_when_stopped (pauseTimer (startTimer init))
      (CallReachable.pause (CallReachable.start CallReachable.init)) rfl).1⟩

/-- C12: in every state reachable by toggleTimer, resetTimer, setMode with
one of the three modes and interval ticks, exactly one interval is
registered while `isRunning` is true and none while it is false; so an
interval that can tick implies a running timer; and resetTimer and setMode
leave `isRunning` false. -/
theorem one_interval_iff_running (s : State) (h : Reachable s) :
    (s.isRunning = true → s.intervals.length = 1) ∧
    (s.isRunning = false → s.intervals = []) ∧
    (∀ id : Nat, id ∈ s.intervals → s.isRunning = true) ∧
    (resetTimer s).isRunning = false ∧
    (∀ m : Mode, (setMode m.name s).isRunning = false) := by
  have hs := oneSource_of_reachable h
  unfold OneSource at hs
  refine ⟨?_, ?_, ?_, resetTimer_isRunning s, fun m => setMode_isRunning m.name s⟩
  · intro hr
    rw [if_pos hr] at hs
    obtain ⟨id, -, h2⟩ := hs
    simp [h2]
  · intro hr
    simpa [hr] using hs
  · intro id hid
    by_contra hr
    have hf : s.isRunning = false := by simpa using hr
    rw [hf] at hs
    simp only [Bool.false_eq_true, if_false] at hs
    rw [hs] at hid
    cases hid

/-- C12 at a running timer two ticks into the countdown and right after a
reset of it. -/
theorem one_interval_iff_running_witness :
    ((fire 1)^[2] (toggleTimer init)).isRunning = true ∧
    ((fire 1)^[2] (toggleTimer init)).intervals.length = 1 ∧
    (resetTimer ((fire 1)^[2] (toggleTimer init))).isRunning = false ∧
    (resetTimer ((fire 1)^[2] (toggleTimer init))).intervals = [] :=
  have hreach : Reachable ((fire 1)^[2] (toggleTimer init)) :=
    Reachable.tick 1 (Reachable.tick 1 (Reachable.toggle Reachable.init) (by decide))
      (by decide)
  ⟨by decide, (one_interval_iff_running _ hreach).1 (by decide),
   (one_interval_iff_running _ hreach).2.2.2.1,
   (one_interval_iff_running _ (Reachable.reset hreach)).2.1 (by decide)⟩

/-- C13: for each of the three modes, after setMode exactly one of the three
mode buttons is marked active, the button of that mode, whatever was marked
before; and the mode label is "Focus Time", "Short Break" or "Long Break"
accordingly. -/
theorem setMode_marks_one_button (m : Mode) (s : State) :
    (setMode m.name s).focusActive = decide (m = Mode.focus) ∧
    (setMode m.name s).shortBreakActive = decide (m = Mode.shortBreak) ∧
    (setMode m.name s).longBreakActive = decide (m = Mode.longBreak) ∧
    (setMode m.name s).modeLabelText = modeLabel m := by
  cases m <;> simp [setMode, Mode.name, modeLabel, updateDisplay, pauseTimer]

/-- C14: toggleTimer is pauseTimer when the timer is running and startTimer
when it is not; in both cases it flips `isRunning`. -/
theorem toggleTimer_is_pause_or_start (s : State) :
    (s.isRunning = true → toggleTimer s = pauseTimer s) ∧
    (s.isRunning = false → toggleTimer s = startTimer s) ∧
    (toggleTimer s).isRunning = !s.isRunning := by
  refine ⟨fun h => by simp [toggleTimer, h], fun h => by simp [toggleTimer, h], ?_⟩
  unfold toggleTimer
  cases hr : s.isRunning <;> simp

/-- C14 at the initial state (toggle starts) and at a running timer (toggle
pauses). -/
theorem toggleTimer_is_pause_or_start_witness :
    toggleTimer init = startTimer init ∧
    toggleTimer (startTimer init) = pauseTimer (startTimer init) :=
  ⟨(toggleTimer_is_pause_or_start init).2.1 rfl,
   (toggleTimer_is_pause_or_start (startTimer init)).1 rfl⟩

/-! ## Records with a negative time -/

/-- The function updateDisplay has no clamp of its own: applied to a record
with a negative `timeLeft`, which no run of the script produces, it writes
the signed quotient and remainder. -/
theorem updateDisplay_of_negative_record :
    (updateDisplay { init with timeLeft := -1 }).timerText = "-1:-1" ∧
    (updateDisplay { init with timeLeft := -60 }).timerText = "-1:00" ∧
    (updateDisplay { init with timeLeft := -90 }).timerText = "-2:-30" := by
  decide

/-- C16: a tick of a registered interval taken with `timeLeft ≥ 2` lowers
`timeLeft` by exactly 1, leaves `isRunning`, `currentMode`, `sessions`,
`timerInterval` and the registered intervals unchanged and does not run
timerComplete (no alert); a tick taken with `timeLeft = 1` runs
timerComplete; and among the ticks taken with at least one second left
(every reachable state has one) it is the only one that does. -/
theorem tick_decrements_until_last_second (id : Nat) (s : State) (hid : id ∈ s.intervals) :
    (2 ≤ s.timeLeft →
      fire id s = tickDecrement s ∧
      (fire id s).timeLeft = s.timeLeft - 1 ∧
      (fire id s).isRunning = s.isRunning ∧
      (fire id s).currentMode = s.currentMode ∧
      (fire id s).sessions = s.sessions ∧
      (fire id s).timerInterval = s.timerInterval ∧
      (fire id s).intervals = s.intervals ∧
      (fire id s).alerts = s.alerts) ∧
    (s.timeLeft = 1 →
      fire id s = timerComplete (tickDecrement s) ∧
      (fire id s).alerts = "Time is up!" :: s.alerts) ∧
    (1 ≤ s.timeLeft → ((fire id s).alerts ≠ s.alerts ↔ s.timeLeft = 1)) := by
  have hlast : s.timeLeft ≤ 1 → (fire id s).alerts = "Time is up!" :: s.alerts := by
    intro h
    rw [fire_of_le_one hid h, timerComplete_alerts, tickDecrement_alerts]
  refine ⟨?_, ?_, ?_⟩
  · intro h
    have hf := fire_of_one_lt hid (by omega : 1 < s.timeLeft)
    rw [hf]
    exact ⟨rfl, rfl, rfl, rfl, rfl, rfl, rfl, rfl⟩
  · intro h
    exact ⟨fire_of_le_one hid (by omega), hlast (by omega)⟩
  · intro h
    constructor
    · intro hne
      by_contra h1
      have hf := fire_of_one_lt hid (by omega : 1 < s.timeLeft)
      rw [hf] at hne
      exact hne rfl
    · intro h1
      rw [hlast (by omega)]
      intro hcontra
      have hlen := congrArg List.length hcontra
      simp at hlen

/-- C16 at 1500 seconds (a plain decrement to 1499) and at one second left
(the tick completes and alerts). -/
theorem tick_decrements_until_last_second_witness :
    (fire 1 (startTimer init)).timeLeft = 1499 ∧
    (fire 1 (startTimer init)).alerts = [] ∧
    (fire 1 { startTimer init with timeLeft := 1 }).alerts = ["Time is up!"] :=
  have h1 := (tick_decrements_until_last_second 1 (startTimer init) (by decide)).1 (by decide)
  have h2 := (tick_decrements_until_last_second 1 { startTimer init with timeLeft := 1 }
    (by decide)).2.1 (by decide)
  ⟨h1.2.1, h1.2.2.2.2.2.2.2, h2.2⟩

/-! ## What the display shows in the states the script can reach -/

section Display

theorem updateDisplay_text_of_range (s : State) (h0 : 0 ≤ s.timeLeft)
    (h1 : s.timeLeft ≤ 5999) :
    (updateDisplay s).timerText = formatMMSS s.timeLeft.toNat ∧
    (updateDisplay s).title = formatMMSS s.timeLeft.toNat ++ " - Pomodoro" := by
  obtain ⟨t, ht⟩ : ∃ t : Nat, s.timeLeft = (t : Int) := ⟨s.timeLeft.toNat, by omega⟩
  have hm : floorDiv s.timeLeft 60 = ((t / 60 : Nat) : Int) := by
    rw [ht]; exact (Int.ofNat_fdiv t 60).symm
  have hs : jsRem s.timeLeft 60 = ((t % 60 : Nat) : Int) := by
    rw [ht]; exact (Int.ofNat_tmod t 60).symm
  have hmlt : t / 60 < 100 := by omega
  have hslt : t % 60 < 100 := by omega
  have key : padStart (numToString (floorDiv s.timeLeft 60)) 2 '0' ++ ":" ++
      padStart (numToString (jsRem s.timeLeft 60)) 2 '0' = formatMMSS s.timeLeft.toNat := by
    rw [hm, hs, padStart_numToString_lt_100 _ hmlt, padStart_numToString_lt_100 _ hslt, ht]
    rfl
  exact ⟨key, congrArg (fun x => x ++ " - Pomodoro") key⟩

theorem digitChar_isDigit (k : Nat) (h : k < 10) : (Nat.digitChar k).isDigit = true := by
  interval_cases k <;> decide

theorem isClockText_formatMMSS (t : Nat) (h : t ≤ 5999) :
    isClockText (formatMMSS t) = true := by
  have hd : (formatMMSS t).data =
      [Nat.digitChar (t / 60 / 10), Nat.digitChar (t / 60 % 10), ':',
       Nat.digitChar (t % 60 / 10), Nat.digitChar (t % 60 % 10)] := rfl
  unfold isClockText
  rw [hd]
  simp only [Bool.and_eq_true, beq_self_eq_true, and_true]
  exact ⟨⟨⟨digitChar_isDigit _ (by omega), digitChar_isDigit _ (by omega)⟩,
    digitChar_isDigit _ (by omega)⟩, digitChar_isDigit _ (by omega)⟩

theorem displayFresh_updateDisplay (s : State) : DisplayFresh (updateDisplay s) :=
  ⟨rfl, rfl⟩

theorem displayFresh_resetTimer (s : State) : DisplayFresh (resetTimer s) := by
  simp only [resetTimer]; split_ifs <;> exact displayFresh_updateDisplay _

theorem displayFresh_setMode (v : String) (s : State) : DisplayFresh (setMode v s) := by
  simp only [setMode]; split_ifs <;> exact ⟨rfl, rfl⟩

theorem displayFresh_timerComplete (s : State) : DisplayFresh (timerComplete s) := by
  simp only [timerComplete]; split_ifs <;> exact displayFresh_resetTimer _

theorem displayFresh_fire (id : Nat) {s : State} (h : DisplayFresh s) :
    DisplayFresh (fire id s) := by
  unfold fire intervalCallback
  simp only
  split_ifs
  · exact displayFresh_timerComplete _
  · exact displayFresh_updateDisplay _
  · exact h

theorem resetTimer_timeLeft_bounds (s : State) :
    1 ≤ (resetTimer s).timeLeft ∧ (resetTimer s).timeLeft ≤ 1500 := by
  simp only [resetTimer]
  split_ifs <;> simp [FOCUS_TIME, SHORT_BREAK, LONG_BREAK]

theorem setMode_timeLeft_bounds (v : String) (s : State) :
    1 ≤ (setMode v s).timeLeft ∧ (setMode v s).timeLeft ≤ 1500 := by
  simp only [setMode]
  split_ifs <;> simp [FOCUS_TIME, SHORT_BREAK, LONG_BREAK]

theorem timerComplete_timeLeft_bounds (s : State) :
    1 ≤ (timerComplete s).timeLeft ∧ (timerComplete s).timeLeft ≤ 1500 := by
  simp only [timerComplete]; split_ifs <;> exact resetTimer_timeLeft_bounds _

theorem fire_timeLeft_bounds (id : Nat) {s : State}
    (h : 1 ≤ s.timeLeft ∧ s.timeLeft ≤ 1500) :
    1 ≤ (fire id s).timeLeft ∧ (fire id s).timeLeft ≤ 1500 := by
  unfold fire intervalCallback
  simp only
  split_ifs with _ h0
  · exact timerComplete_timeLeft_bounds _
  · simp only [tickDecrement_timeLeft] at h0 ⊢
    omega
  · exact h

/-- In every state the script can reach, one to 1500 seconds are left and
the display is fresh. -/
theorem bounds_fresh_of_callReachable {s : State} (h : CallReachable s) :
    (1 ≤ s.timeLeft ∧ s.timeLeft ≤ 1500) ∧ DisplayFresh s := by
  induction h with
  | init => exact ⟨⟨by decide, by decide⟩, rfl, rfl⟩
  | start _ ih => exact ⟨ih.1, ih.2⟩
  | pause _ ih => exact ⟨ih.1, ih.2⟩
  | toggle _ ih =>
    unfold toggleTimer
    split_ifs
    · exact ⟨ih.1, ih.2⟩
    · exact ⟨ih.1, ih.2⟩
  | reset _ _ => exact ⟨resetTimer_timeLeft_bounds _, displayFresh_resetTimer _⟩
  | mode v _ _ => exact ⟨setMode_timeLeft_bounds v _, displayFresh_setMode v _⟩
  | tick id _ _ ih => exact ⟨fire_timeLeft_bounds id ih.1, displayFresh_fire id ih.2⟩

theorem text_of_fresh {s : State} (hb : 0 ≤ s.timeLeft ∧ s.timeLeft ≤ 1500)
    (hf : DisplayFresh s) :
    s.timerText = formatMMSS s.timeLeft.toNat ∧
    s.title = formatMMSS s.timeLeft.toNat ++ " - Pomodoro" := by
  have h := updateDisplay_text_of_range s hb.1 (by omega)
  exact ⟨hf.1.trans h.1, hf.2.trans h.2⟩

theorem updateDisplay_of_zero (x : State) (h : x.timeLeft = 0) :
    (updateDisplay x).timerText = "00:00" ∧
    (updateDisplay x).title = "00:00 - Pomodoro" := by
  have h1 : (updateDisplay x).timerText =
      padStart (numToString (floorDiv x.timeLeft 60)) 2 '0' ++ ":" ++
        padStart (numToString (jsRem x.timeLeft 60)) 2 '0' := rfl
  have h2 : (updateDisplay x).title =
      padStart (numToString (floorDiv x.timeLeft 60)) 2 '0' ++ ":" ++
        padStart (numToString (jsRem x.timeLeft 60)) 2 '0' ++ " - Pomodoro" := rfl
  rw [h1, h2, h]
  exact ⟨by decide, by decide⟩

theorem callReachable_iterate_fire (id : Nat) {s : State} (h : CallReachable s)
    (hid : id ∈ s.intervals) (n : Nat) (hn : (n : Int) ≤ s.timeLeft) :
    CallReachable ((fire id)^[n] s) := by
  induction n with
  | zero => exact h
  | succ k ih =>
    have hk : (k : Int) < s.timeLeft := by push_cast at hn; omega
    obtain ⟨-, -, h3, -⟩ := iterate_fire_lt id s hid k hk
    rw [Function.iterate_succ_apply']
    exact CallReachable.tick id (ih (by omega)) (by rw [h3]; exact hid)

end Display

/-- C15: the value rendered for display never goes below 0.  In every state
reachable by calls of the script's functions and ticks, `timeLeft` is
positive; the value a tick lowers it to and hands to updateDisplay is not
negative; whenever that value is `≤ 0` the tick renders "00:00" (and the
title "00:00 - Pomodoro"); and updateDisplay renders "00:00" for every
record whose `timeLeft` is 0. -/
theorem rendered_time_never_below_zero (s : State) (h : CallReachable s) :
    0 < s.timeLeft ∧
    0 ≤ (tickDecrement s).timeLeft ∧
    ((tickDecrement s).timeLeft ≤ 0 →
      (tickDecrement s).timerText = "00:00" ∧
      (tickDecrement s).title = "00:00 - Pomodoro") ∧
    (∀ x : State, x.timeLeft = 0 →
      (updateDisplay x).timerText = "00:00" ∧
      (updateDisplay x).title = "00:00 - Pomodoro") := by
  obtain ⟨⟨h1, -⟩, -⟩ := bounds_fresh_of_callReachable h
  have ht : (tickDecrement s).timeLeft = s.timeLeft - 1 := rfl
  refine ⟨by omega, by rw [ht]; omega, ?_, updateDisplay_of_zero⟩
  intro hle
  exact updateDisplay_of_zero { s with timeLeft := s.timeLeft - 1 }
    (by show s.timeLeft - 1 = 0; rw [ht] at hle; omega)

/-- C15 at the last second of a focus countdown from the loaded page: the
tick lowers `timeLeft` to 0 and renders "00:00". -/
theorem rendered_time_never_below_zero_witness :
    ((fire 1)^[1499] (startTimer init)).timeLeft = 1 ∧
    (tickDecrement ((fire 1)^[1499] (startTimer init))).timeLeft = 0 ∧
    (tickDecrement ((fire 1)^[1499] (startTimer init))).timerText = "00:00" ∧
    (tickDecrement ((fire 1)^[1499] (startTimer init))).title = "00:00 - Pomodoro" :=
  have hid : 1 ∈ (startTimer init).intervals := by decide
  have hlt := iterate_fire_lt 1 (startTimer init) hid 1499 (by decide)
  have hreach : CallReachable ((fire 1)^[1499] (startTimer init)) :=
    callReachable_iterate_fire 1 (CallReachable.start CallReachable.init) hid 1499
      (by decide)
  have hzero : (tickDecrement ((fire 1)^[1499] (startTimer init))).timeLeft = 0 := by
    rw [tickDecrement_timeLeft, hlt.1]; decide
  have hc := (rendered_time_never_below_zero _ hreach).2.2.1 (by rw [hzero])
  ⟨by rw [hlt.1]; decide, hzero, hc.1, hc.2⟩


/-- C17: in every state reachable by startTimer, pauseTimer, toggleTimer,
resetTimer, setMode (any argument) and ticks of registered intervals, two
intervals running side by side included, `1 ≤ timeLeft ≤ 1500`; the value a
tick shows before it tests for completion is not negative; and both texts,
the one on the page and the one a tick writes, are five characters, two
digits, a colon, two digits. -/
theorem timeLeft_positive_between_calls (s : State) (h : CallReachable s) :
    1 ≤ s.timeLeft ∧ s.timeLeft ≤ 1500 ∧
    0 ≤ (tickDecrement s).timeLeft ∧
    isClockText s.timerText = true ∧
    isClockText (tickDecrement s).timerText = true := by
  obtain ⟨⟨h1, h2⟩, hf⟩ := bounds_fresh_of_callReachable h
  have ht : (tickDecrement s).timeLeft = s.timeLeft - 1 := rfl
  refine ⟨h1, h2, by rw [ht]; omega, ?_, ?_⟩
  · rw [(text_of_fresh ⟨by omega, h2⟩ hf).1]
    exact isClockText_formatMMSS _ (by omega)
  · have hfresh : DisplayFresh (tickDecrement s) := displayFresh_updateDisplay _
    rw [(text_of_fresh ⟨by rw [ht]; omega, by rw [ht]; omega⟩ hfresh).1]
    exact isClockText_formatMMSS _ (by rw [ht]; omega)

/-- C17 with two intervals registered by two startTimer calls, after each
has ticked once. -/
theorem timeLeft_positive_between_calls_witness :
    (startTimer (startTimer init)).intervals = [1, 2] ∧
    (fire 2 (fire 1 (startTimer (startTimer init)))).timeLeft = 1498 ∧
    1 ≤ (fire 2 (fire 1 (startTimer (startTimer init)))).timeLeft ∧
    isClockText (fire 2 (fire 1 (startTimer (startTimer init)))).timerText = true :=
  have hreach : CallReachable (fire 2 (fire 1 (startTimer (startTimer init)))) :=
    CallReachable.tick 2
      (CallReachable.tick 1 (CallReachable.start (CallReachable.start CallReachable.init))
        (by decide))
      (by decide)
  ⟨by decide, by decide, (timeLeft_positive_between_calls _ hreach).1,
   (timeLeft_positive_between_calls _ hreach).2.2.2.1⟩

/-- C18: in every state reached from the loaded page by calls of the
script's functions and ticks, the timer text is the MM:SS form of the
current `timeLeft` and the page title is that text followed by
" - Pomodoro"; the same holds of the state timerComplete returns, whatever
state it is applied to. -/
theorem display_never_stale (s : State) (h : CallReachable s) :
    s.timerText = formatMMSS s.timeLeft.toNat ∧
    s.title = s.timerText ++ " - Pomodoro" ∧
    (∀ x : State,
      (timerComplete x).timerText = formatMMSS (timerComplete x).timeLeft.toNat ∧
      (timerComplete x).title = (timerComplete x).timerText ++ " - Pomodoro") := by
  obtain ⟨⟨h1, h2⟩, hf⟩ := bounds_fresh_of_callReachable h
  have hs := text_of_fresh ⟨by omega, h2⟩ hf
  refine ⟨hs.1, by rw [hs.2, hs.1], ?_⟩
  intro x
  have hb := timerComplete_timeLeft_bounds x
  have hx := text_of_fresh ⟨by omega, hb.2⟩ (displayFresh_timerComplete x)
  exact ⟨hx.1, by rw [hx.2, hx.1]⟩

/-- C18 after a start, three ticks and a pause: the page shows 24:57. -/
theorem display_never_stale_witness :
    (toggleTimer ((fire 1)^[3] (toggleTimer init))).timeLeft = 1497 ∧
    (toggleTimer ((fire 1)^[3] (toggleTimer init))).timerText = "24:57" ∧
    (toggleTimer ((fire 1)^[3] (toggleTimer init))).title = "24:57 - Pomodoro" :=
  have hreach : CallReachable (toggleTimer ((fire 1)^[3] (toggleTimer init))) :=
    CallReachable.toggle
      (CallReachable.tick 1
        (CallReachable.tick 1
          (CallReachable.tick 1 (CallReachable.toggle CallReachable.init) (by decide))
          (by decide))
        (by decide))
  ⟨by decide, (display_never_stale _ hreach).1, (display_never_stale _ hreach).2.1⟩

/-- C19: startTimer, pauseTimer and toggleTimer leave `timeLeft`,
`currentMode` and `sessions` unchanged, and toggleTimer applied twice
restores `isRunning` and leaves those three as they were. -/
theorem toggle_twice_resumes (s : State) :
    ((startTimer s).timeLeft = s.timeLeft ∧ (startTimer s).currentMode = s.currentMode ∧
      (startTimer s).sessions = s.sessions) ∧
    ((pauseTimer s).timeLeft = s.timeLeft ∧ (pauseTimer s).currentMode = s.currentMode ∧
      (pauseTimer s).sessions = s.sessions) ∧
    ((toggleTimer s).timeLeft = s.timeLeft ∧ (toggleTimer s).currentMode = s.currentMode ∧
      (toggleTimer s).sessions = s.sessions) ∧
    (toggleTimer (toggleTimer s)).isRunning = s.isRunning ∧
    (toggleTimer (toggleTimer s)).timeLeft = s.timeLeft ∧
    (toggleTimer (toggleTimer s)).currentMode = s.currentMode ∧
    (toggleTimer (toggleTimer s)).sessions = s.sessions := by
  refine ⟨⟨rfl, rfl, rfl⟩, ⟨rfl, rfl, rfl⟩, ?_, ?_⟩
  · unfold toggleTimer; split_ifs <;> exact ⟨rfl, rfl, rfl⟩
  · cases hr : s.isRunning <;> simp [toggleTimer, hr]

end Pomodoro
